import Mathlib

/-!
# Verification of the la-window event-dispatch core (src/la_window.h)

A shallow embedding of the library in `src/la_window.h`.  The C code is a
single-header Win32 windowing layer; its core is the window procedure
`__law_proc` together with the per-window `law_Data` state, the one-time
window-class registration inside `law_create`, the non-blocking message pump
`law_update`, and the error table `law_getErrorMsg`.

Modelling conventions:
* Callback function pointers are modelled as identifiers (`Option Nat`; `none`
  is the C null pointer).  Where a callback body matters, an environment
  `Nat → LawData → LawData` supplies its behaviour on the per-window state,
  matching the C signature `void cb(law_Window, law_Data*)` in which the
  callback mutates the state through the second argument.
* The native backend (RegisterClassW, CreateWindowExW, malloc,
  GetTouchInputInfo, GetPointerPenInfo, PeekMessageW) is represented by
  explicit outcome parameters; the dispatch logic translated from the source
  is what the theorems are about.
* C `unsigned int` / `UINT` values are `Nat`; `LONG` / `int` values are `Int`
  with `Int.tdiv` for the truncating C division.
* `assert` is a no-op in the release builds of this project (the Makefile
  builds with `-DNDEBUG`); `law_getErrorMsgChecked` additionally models the
  assertion-enabled build of `law_getErrorMsg`.
* Undefined behaviour that the modelled paths can actually reach (a null
  `law_Data*` dereference) is made explicit with `Except`: `Except.error`
  means the C program crashed (dereferenced null) at that point.
-/

/-! ## Error codes (enum law_ErrorCode, la_window.h:388-394) -/

def LAW_ERROR_NONE : Nat := 0

def LAW_ERROR_CREATE_WINDOW : Nat := 1

def LAW_ERROR_ALLOCATE_MEMORY_FOR_PARAMS : Nat := 2

def LAW_ERROR_REGISTER_WINDOW_CLASS : Nat := 3

/-! ## Error messages (law_getErrorMsg, la_window.h:878-908)

The function indexes a single string arena holding the four messages
separated by explicit NUL bytes and returns a pointer into that arena; the
arena and the index table are reproduced byte for byte.  Reading a C string
from an offset is `lawCStringAt`: the characters up to the first NUL. -/

/-- The concatenated string literal `error_arena` (la_window.h:895-899):
four message texts, each followed by an explicit NUL byte. -/
def law_error_arena : List Char :=
  "No error =)".data ++ [Char.ofNat 0] ++
  "Failed to create window".data ++ [Char.ofNat 0] ++
  "Failed to allocate memory for window parameters".data ++ [Char.ofNat 0] ++
  "Failed to register window class".data ++ [Char.ofNat 0]

/-- The offset table `indices` (la_window.h:901). -/
def law_error_indices : List Nat := [0, 13, 38, 87]

/-- The unused message table `__not_used__` (la_window.h:888-893).  It
documents, inside the source itself, the intended full text of each message. -/
def law_not_used_messages : List String :=
  ["No error =)",
   "Failed to create window",
   "Failed to allocate memory for window parameters",
   "Failed to register window class"]

/-- Reading the C string that starts at byte offset `i` of an arena: the
characters up to (and excluding) the first NUL byte. -/
def lawCStringAt (arena : List Char) (i : Nat) : String :=
  String.mk ((arena.drop i).takeWhile (fun c => c ≠ Char.ofNat 0))

/-- `law_getErrorMsg` (la_window.h:878-908) with assertions disabled (the
release builds define NDEBUG): `error_code < indices_length ?
error_arena + indices[error_code] : "Unknown error"`. -/
def law_getErrorMsg (error_code : Nat) : String :=
  if error_code < law_error_indices.length then
    lawCStringAt law_error_arena (law_error_indices.getD error_code 0)
  else
    "Unknown error"

/-- `law_getErrorMsg` in an assertion-enabled build.  The function begins with
`assert(error_code >= 0 && error_code < 3)` (la_window.h:879); for an
`unsigned int` the first conjunct always holds, so the call aborts exactly
when `error_code < 3` fails (`Except.error ()`), and otherwise returns what
the assertion-disabled body returns.  The remaining asserts
(la_window.h:881-884) restate the enum values and always pass. -/
def law_getErrorMsgChecked (error_code : Nat) : Except Unit String :=
  if error_code < 3 then Except.ok (law_getErrorMsg error_code)
  else Except.error ()

/-! ## The per-window state `law_Data` (la_window.h:161-327)

Callback slots hold callback identifiers (`none` = C null pointer). -/

/-- `law_WindowEvents` (la_window.h:203-217). -/
structure law_WindowEvents where
  destroy : Option Nat
  close : Option Nat
  resize : Option Nat
  move : Option Nat
  focus : Option Nat
  unfocus : Option Nat
  redraw : Option Nat
  minimize : Option Nat
  maximize : Option Nat
  «show» : Option Nat
  hide : Option Nat
  file_drop : Option Nat
  touch : Option Nat
deriving DecidableEq

/-- `law_KeyboardEvents` (la_window.h:220-223). -/
structure law_KeyboardEvents where
  down : Option Nat
  up : Option Nat
deriving DecidableEq

/-- `law_MouseEvents` (la_window.h:226-231). -/
structure law_MouseEvents where
  move : Option Nat
  down : Option Nat
  up : Option Nat
  wheel : Option Nat
deriving DecidableEq

/-- `law_Events` (la_window.h:245-280). -/
structure law_Events where
  window : law_WindowEvents
  key : law_KeyboardEvents
  mouse : law_MouseEvents
  pen : Option Nat
deriving DecidableEq

/-- `law_Data` (la_window.h:291-327).  `user_data` is a `void*`: `none` is
null, `some a` an opaque non-null pointer. -/
structure law_Data where
  event : law_Events
  running : Int
  user_data : Option Nat
deriving DecidableEq

/-- `law_initEvents` (la_window.h:358-382): assigns NULL to every one of the
twenty callback slots of the given events structure. -/
def law_initEvents (events : law_Events) : law_Events :=
  { events with
    window.destroy := none
    window.close := none
    window.resize := none
    window.move := none
    window.focus := none
    window.unfocus := none
    window.redraw := none
    window.minimize := none
    window.maximize := none
    window.«show» := none
    window.hide := none
    window.file_drop := none
    window.touch := none
    key.down := none
    key.up := none
    mouse.move := none
    mouse.down := none
    mouse.up := none
    mouse.wheel := none
    pen := none }

/-- The `law_Data` value built by `__law_wrapperCreate` (la_window.h:447-450)
when `malloc` succeeds: events initialised by `law_initEvents` (the malloc
garbage it overwrites is irrelevant, see `law_initEvents_const`), then
`running = 1` and `user_data = NULL`. -/
def law_initialData : law_Data :=
  { event := law_initEvents
      ⟨⟨none, none, none, none, none, none, none, none, none, none, none, none,
        none⟩, ⟨none, none⟩, ⟨none, none, none, none⟩, none⟩,
    running := 1,
    user_data := none }

/-- Every one of the twenty callback slots of an event table is absent. -/
def lawEventsAllAbsent (e : law_Events) : Bool :=
  e.window.destroy.isNone && e.window.close.isNone && e.window.resize.isNone &&
  e.window.move.isNone && e.window.focus.isNone && e.window.unfocus.isNone &&
  e.window.redraw.isNone && e.window.minimize.isNone &&
  e.window.maximize.isNone && e.window.«show».isNone && e.window.hide.isNone &&
  e.window.file_drop.isNone && e.window.touch.isNone &&
  e.key.down.isNone && e.key.up.isNone &&
  e.mouse.move.isNone && e.mouse.down.isNone && e.mouse.up.isNone &&
  e.mouse.wheel.isNone && e.pen.isNone

/-- `law_getData` (la_window.h:867-869): returns the content of the
per-window storage slot (`GetWindowLongPtrW(window, GWLP_USERDATA)`), here
passed in explicitly; `none` is a null pointer. -/
def law_getData (gwlp_userdata : Option law_Data) : Option law_Data :=
  gwlp_userdata

/-! ## The destruction handler `__law_wrapperDestroy` (la_window.h:456-467)

`EVENT` expands to the attached `law_Events*` read from the per-window slot
(la_window.h:436); the handler first evaluates `EVENT->window.destroy`.  When
the slot content is a null pointer (window created without a completed
`__law_wrapperCreate`), that read dereferences null: `Except.error ()`.
Otherwise the result is the ordered list of actions the handler performs. -/

/-- One observable action of the destruction handler. -/
inductive DestroyAct where
  | invokeDestroy (cb : Nat)
  | freeState
  | defaultProc
deriving DecidableEq

/-- `__law_wrapperDestroy` (la_window.h:456-467).  With the destroy slot
absent it returns `DefWindowProcW(...)` at once — the state is not freed;
with the slot present it invokes the callback with `(window, win_data)` and
then calls `free(win_data)`. -/
def __law_wrapperDestroy (gwlp_userdata : Option law_Data) :
    Except Unit (List DestroyAct) :=
  match gwlp_userdata with
  | none => Except.error ()
  | some win_data =>
    match win_data.event.window.destroy with
    | none => Except.ok [DestroyAct.defaultProc]
    | some cb => Except.ok [DestroyAct.invokeDestroy cb, DestroyAct.freeState]

/-! ## Window creation (`law_create`, la_window.h:775-813, and
`__law_wrapperCreate`, la_window.h:438-455)

`law_create` keeps the `static unsigned char class_registered` flag and the
global `law_error`, gathered into `ProcState`.  Per-call native outcomes
(`RegisterClassW`, `CreateWindowExW`, `malloc`) are a `CreateEnv`.  When the
native window is created, `CreateWindowExW` synchronously raises `WM_CREATE`,
running `__law_wrapperCreate` before `CreateWindowExW` returns; if that
handler destroys the window, `CreateWindowExW` returns NULL (the creation as
a whole fails, per spec 4.2/4.3). -/

/-- The process-wide mutable state `law_create` touches: the global
`law_error` (la_window.h:61) and the function-static `class_registered`
(la_window.h:776). -/
structure ProcState where
  law_error : Nat
  class_registered : Bool
deriving DecidableEq

/-- Native outcomes for one `law_create` call. -/
structure CreateEnv where
  registerOk : Bool
  createOk : Bool
  mallocOk : Bool
deriving DecidableEq

/-- What one `law_create` call produced: whether a non-null handle was
returned, the content of the per-window storage slot afterwards, the final
process state, and whether this call executed the `RegisterClassW` branch. -/
structure CreateCallResult where
  handle : Bool
  attached : Option law_Data
  state : ProcState
  registrationAttempted : Bool
deriving DecidableEq

/-- `__law_wrapperCreate` (la_window.h:438-455), run synchronously on
`WM_CREATE`.  On `malloc` success it initialises the state and attaches it
(`SetWindowLongPtrW`), returning the new slot content.  On `malloc` failure
it asserts (no-op under NDEBUG), calls `DestroyWindow` — which synchronously
dispatches `WM_DESTROY` to `__law_wrapperDestroy` while the per-window slot
is still null, a null dereference — and only then would set `law_error` to
`LAW_ERROR_ALLOCATE_MEMORY_FOR_PARAMS`. -/
def __law_wrapperCreate (mallocOk : Bool) (s : ProcState) :
    Except ProcState (Option law_Data × ProcState) :=
  if mallocOk then
    Except.ok (some law_initialData, s)
  else
    match __law_wrapperDestroy none with
    | Except.error _ => Except.error s
    | Except.ok _ =>
      Except.ok (none, { s with law_error := LAW_ERROR_ALLOCATE_MEMORY_FOR_PARAMS })

/-- The `CreateWindowExW` call of `law_create` (la_window.h:794-810) together
with its synchronous `WM_CREATE` dispatch.  A null handle — whether from
native failure or because the creation handler destroyed the window — makes
`law_create` set `law_error = LAW_ERROR_CREATE_WINDOW` and return NULL
(la_window.h:806-810). -/
def law_createWindow (env : CreateEnv) (s : ProcState) (attempted : Bool) :
    Except ProcState CreateCallResult :=
  if env.createOk = false then
    Except.ok { handle := false, attached := none,
                state := { s with law_error := LAW_ERROR_CREATE_WINDOW },
                registrationAttempted := attempted }
  else
    match __law_wrapperCreate env.mallocOk s with
    | Except.error e => Except.error e
    | Except.ok (some d, s2) =>
      Except.ok { handle := true, attached := some d, state := s2,
                  registrationAttempted := attempted }
    | Except.ok (none, s2) =>
      Except.ok { handle := false, attached := none,
                  state := { s2 with law_error := LAW_ERROR_CREATE_WINDOW },
                  registrationAttempted := attempted }

/-- `law_create` (la_window.h:775-813).  If `class_registered` is unset it
attempts `RegisterClassW`; on registration failure it sets
`law_error = LAW_ERROR_CREATE_WINDOW` (la_window.h:787) and returns NULL
without setting `class_registered`; on success it sets the flag and
proceeds to create the window. -/
def law_create (env : CreateEnv) (s : ProcState) :
    Except ProcState CreateCallResult :=
  if s.class_registered = false then
    if env.registerOk = false then
      Except.ok { handle := false, attached := none,
                  state := { s with law_error := LAW_ERROR_CREATE_WINDOW },
                  registrationAttempted := true }
    else
      law_createWindow env { s with class_registered := true } true
  else
    law_createWindow env s false

/-- A sequence of `law_create` calls in one process, threading the process
state; stops at a crash. -/
def law_createRuns : List CreateEnv → ProcState →
    Except ProcState (List CreateCallResult × ProcState)
  | [], s => Except.ok ([], s)
  | env :: rest, s =>
    match law_create env s with
    | Except.error e => Except.error e
    | Except.ok r =>
      match law_createRuns rest r.state with
      | Except.error e => Except.error e
      | Except.ok (rs, s2) => Except.ok (r :: rs, s2)

/-! ## The system-command handler `__law_wrapperSysCommand`
(la_window.h:614-635) -/

def SC_MINIMIZE : Nat := 0xF020

def SC_MAXIMIZE : Nat := 0xF030

/-- Result of one system-command dispatch: default native handling with the
state untouched, or a handled dispatch whose invoked callback produced the
new state. -/
inductive SysCmdOutcome where
  | defaultProc (d : law_Data)
  | handled (d : law_Data)
deriving DecidableEq

/-- `__law_wrapperSysCommand` (la_window.h:614-635): masks `wParam` with
`0xFFF0`, then for `SC_MINIMIZE` / `SC_MAXIMIZE` reads the corresponding slot
from the current state of the window at dispatch time (the `EVENT` macro
re-reads the per-window slot, la_window.h:436); absent slot means
`DefWindowProcW`.  `env` gives each callback identifier its behaviour on the
per-window state. -/
def __law_wrapperSysCommand (env : Nat → law_Data → law_Data) (wParam : Nat)
    (d : law_Data) : SysCmdOutcome :=
  let command := wParam &&& 0xFFF0
  if command = SC_MINIMIZE then
    match d.event.window.minimize with
    | none => SysCmdOutcome.defaultProc d
    | some cb => SysCmdOutcome.handled (env cb d)
  else if command = SC_MAXIMIZE then
    match d.event.window.maximize with
    | none => SysCmdOutcome.defaultProc d
    | some cb => SysCmdOutcome.handled (env cb d)
  else
    SysCmdOutcome.defaultProc d

/-- The test program scenario (tests/test_window.c): callback 1 installs
callback 2 as the new maximize handler, callback 2 installs callback 1. -/
def lawMaxSwapEnv : Nat → law_Data → law_Data := fun cb d =>
  if cb = 1 then { d with event.window.maximize := some 2 }
  else if cb = 2 then { d with event.window.maximize := some 1 }
  else d

/-- A window state whose maximize slot holds callback 1. -/
def lawMaxData0 : law_Data :=
  { law_initialData with event.window.maximize := some 1 }

/-! ## The touch handler `__law_wrapperTouch` (la_window.h:664-691)

The handler reads `c_inputs = LOWORD(wParam)`, declares
`TOUCHINPUT touch_input[10]`, passes the unclamped `c_inputs` to
`GetTouchInputInfo`, and loops `for (i = 0; i < c_inputs; i++)` over
`touch_input[i]`. -/

/-- The fields of `TOUCHINPUT` the handler reads.  `x`, `y` are `LONG`
coordinates in hundredths of a pixel. -/
structure TOUCHINPUT where
  x : Int
  y : Int
  dwID : Nat
  dwMask : Nat
deriving DecidableEq

/-- The declared size of the stack buffer `touch_input[10]`
(la_window.h:669). -/
def LAW_TOUCH_INPUT_LEN : Nat := 10

/-- The buffer indices the loop at la_window.h:672-686 accesses for a given
backend-reported count `c_inputs`: every `i` with `i < c_inputs`. -/
def __law_touchIndices (c_inputs : Nat) : List Nat := List.range c_inputs

/-- Whether every buffer access of the touch loop stays inside
`touch_input[10]`. -/
def __law_touchInBounds (c_inputs : Nat) : Bool :=
  (__law_touchIndices c_inputs).all (fun i => i < LAW_TOUCH_INPUT_LEN)

/-- Result of one touch dispatch. -/
inductive TouchOutcome where
  | defaultProc
  | dropped
  | dispatched (calls : List (Int × Int))
deriving DecidableEq

/-- `__law_wrapperTouch` (la_window.h:664-691).  Slot absent:
`DefWindowProcW`.  `GetTouchInputInfo` failing: nothing is dispatched and the
handler returns 0 (`dropped`).  Otherwise the loop runs once per reported
point, invoking the touch slot with the pixel coordinates
`touch_input[i].x / 100`, `touch_input[i].y / 100` (truncating C division;
the computed `dx`, `dy` are always zero and are not passed on).
`touch_input` gives the buffer content at each index the loop reads. -/
def __law_wrapperTouch (touchSlot : Option Nat) (wParamLow : Nat)
    (getInfoOk : Bool) (touch_input : Nat → TOUCHINPUT) : TouchOutcome :=
  match touchSlot with
  | none => TouchOutcome.defaultProc
  | some _ =>
    if getInfoOk then
      TouchOutcome.dispatched ((__law_touchIndices wParamLow).map (fun i =>
        (Int.tdiv (touch_input i).x 100, Int.tdiv (touch_input i).y 100)))
    else
      TouchOutcome.dropped

/-! ## The pen handler `__law_wrapperPointerUpdate` (la_window.h:693-711) -/

/-- The fields of `POINTER_PEN_INFO` the handler reads. -/
structure POINTER_PEN_INFO where
  pressure : Int
  tiltX : Int
  tiltY : Int
deriving DecidableEq

/-- Result of one pen dispatch: default native handling, a callback
invocation with the queried values, or a silent drop (`return 0` with
nothing invoked). -/
inductive PenOutcome where
  | defaultProc
  | invoked (cb : Nat) (pointer_id : Nat) (pressure tiltX tiltY : Int)
  | dropped
deriving DecidableEq

/-- `__law_wrapperPointerUpdate` (la_window.h:693-711).  Pen slot absent:
`DefWindowProcW`.  Otherwise it computes
`pointer_id = GET_POINTERID_WPARAM(wParam)` (the low word) and queries
`GetPointerPenInfo`; on success it invokes the pen slot with the pointer id,
pressure and the two tilts, on failure it returns 0 without invoking
anything.  The global `law_error` is threaded through unchanged — the
function never writes it. -/
def __law_wrapperPointerUpdate (penSlot : Option Nat) (wParam : Nat)
    (getPenInfo : Nat → Option POINTER_PEN_INFO) (law_error : Nat) :
    PenOutcome × Nat :=
  match penSlot with
  | none => (PenOutcome.defaultProc, law_error)
  | some cb =>
    let pointer_id := wParam &&& 0xFFFF
    match getPenInfo pointer_id with
    | some pen_info =>
      (PenOutcome.invoked cb pointer_id pen_info.pressure pen_info.tiltX
        pen_info.tiltY, law_error)
    | none => (PenOutcome.dropped, law_error)

/-! ## The message pump `law_update` (la_window.h:748-759)

`PeekMessageW(..., PM_REMOVE)` is non-blocking: the pending queue (scoped to
the given window, or to all windows for NULL) is a list; each iteration
removes the head.  A `WM_QUIT` message invokes the exit hook (if set,
la_window.h:752-753) with `(int)msg.wParam` and breaks out of the loop;
anything else goes through `TranslateMessage` / `DispatchMessageW` to the
window procedure. -/

def WM_QUIT : Nat := 0x0012

/-- The fields of `MSG` the pump reads; `wParam` of a quit message carries
the exit code posted by `PostQuitMessage`. -/
structure MSG where
  message : Nat
  wParam : Int
deriving DecidableEq

/-- What one `law_update` call did: the messages routed to
`DispatchMessageW` in order, the exit-hook invocation (with its argument) if
any, and the messages still pending when the call returned. -/
structure PumpResult where
  dispatched : List MSG
  exitInvoked : Option Int
  pending : List MSG
deriving DecidableEq

/-- `law_update` (la_window.h:748-759), as a function of the pending queue.
`exitHookSet` says whether `__law_exit_func` is non-null. -/
def law_update (exitHookSet : Bool) : List MSG → PumpResult
  | [] => { dispatched := [], exitInvoked := none, pending := [] }
  | msg :: rest =>
    if msg.message = WM_QUIT then
      { dispatched := [],
        exitInvoked := if exitHookSet then some msg.wParam else none,
        pending := rest }
    else
      let r := law_update exitHookSet rest
      { r with dispatched := msg :: r.dispatched }

/-- `law_exit` (la_window.h:761-763): `PostQuitMessage(exit_code)` enqueues a
quit notification carrying the code. -/
def law_exit (exit_code : Int) (queue : List MSG) : List MSG :=
  queue ++ [{ message := WM_QUIT, wParam := exit_code }]

/-! ## Helper lemmas -/

/-- `law_initEvents` overwrites every slot, so its result does not depend on
the (malloc-garbage) structure it receives. -/
theorem law_initEvents_const (e f : law_Events) :
    law_initEvents e = law_initEvents f := rfl

/-- Draining a quit-free prefix: the pump dispatches each message of the
prefix in order and then continues with the rest of the queue. -/
theorem law_update_drain (hook : Bool) (t : List MSG) :
    ∀ pre : List MSG, (∀ m ∈ pre, m.message ≠ WM_QUIT) →
      law_update hook (pre ++ t) =
        { dispatched := pre ++ (law_update hook t).dispatched,
          exitInvoked := (law_update hook t).exitInvoked,
          pending := (law_update hook t).pending } := by
  intro pre
  induction pre with
  | nil => intro _; simp
  | cons m ms ih =>
    intro h
    have hm : m.message ≠ WM_QUIT := h m (List.mem_cons_self m ms)
    have hms : ∀ x ∈ ms, x.message ≠ WM_QUIT :=
      fun x hx => h x (List.mem_cons_of_mem m hx)
    simp [law_update, hm, ih hms]

/-! ## C2 — destruction frees the state -/

/-- C2: refuted on the code.  Processing the destruction notification for a
window in its freshly created state (destroy slot absent, the default) takes
the `DefWindowProcW` path and performs no `free` at all — the Window State is
leaked, not freed exactly once; only with a destroy slot installed does the
handler invoke the callback and then free the state. -/
theorem wrapperDestroy_no_callback_never_frees :
    __law_wrapperDestroy (some law_initialData) =
      Except.ok [DestroyAct.defaultProc] ∧
    ((__law_wrapperDestroy (some law_initialData)).toOption.getD []).count
      DestroyAct.freeState = 0 ∧
    __law_wrapperDestroy
        (some { law_initialData with event.window.destroy := some 7 }) =
      Except.ok [DestroyAct.invokeDestroy 7, DestroyAct.freeState] :=
  ⟨rfl, rfl, rfl⟩

/-! ## C3 — error messages -/

/-- C3: refuted on the code.  `law_getErrorMsg 0` does return the designated
no-error text, and every code outside 0..3 yields the generic unknown-error
text; but for the codes 1, 2, 3 the offsets `{0, 13, 38, 87}` were computed
with each segment length overcounted (the comments in the source count 13,
25, 49 where the segments occupy 12, 24, 48 bytes), so the returned strings
start one, two and three bytes past the start of the intended messages —
the full messages documented by the source in its own (unused)
`__not_used__` table. -/
theorem errorMsg_truncated_messages :
    law_getErrorMsg 0 = "No error =)" ∧
    law_getErrorMsg 1 = "ailed to create window" ∧
    law_getErrorMsg 2 = "iled to allocate memory for window parameters" ∧
    law_getErrorMsg 3 = "led to register window class" ∧
    law_getErrorMsg 0 = law_not_used_messages.getD 0 "" ∧
    law_getErrorMsg 1 ≠ law_not_used_messages.getD 1 "" ∧
    law_getErrorMsg 2 ≠ law_not_used_messages.getD 2 "" ∧
    law_getErrorMsg 3 ≠ law_not_used_messages.getD 3 "" ∧
    law_getErrorMsg 4 = "Unknown error" ∧
    law_getErrorMsg 1000 = "Unknown error" := by
  refine ⟨rfl, rfl, rfl, rfl, rfl, ?_, ?_, ?_, rfl, rfl⟩ <;> decide

/-! ## C4 — allocation failure during creation -/

/-- C4: refuted on the code.  In a `law_create` call where registration and
the native window creation succeed but the allocation of the Window State
fails, the creation handler calls `DestroyWindow` before setting any error
code; the synchronous `WM_DESTROY` dispatch reads the still-null per-window
slot and dereferences it, so the run crashes (`Except.error`) with
`law_error` still 0 — never set to `LAW_ERROR_ALLOCATE_MEMORY_FOR_PARAMS` —
and `law_create` never returns.  (In an assertion-enabled build the
`assert(0 && ...)` at la_window.h:442 aborts even earlier.) -/
theorem create_alloc_failure_crashes :
    law_create { registerOk := true, createOk := true, mallocOk := false }
        { law_error := 0, class_registered := false } =
      Except.error { law_error := 0, class_registered := true } ∧
    (0 : Nat) ≠ LAW_ERROR_ALLOCATE_MEMORY_FOR_PARAMS :=
  ⟨rfl, by decide⟩

/-! ## C5 — touch dispatch bounds -/

/-- C5: refuted on the code.  The touch handler loops over every index below
the backend-reported count `LOWORD(wParam)` without clamping it to the
10-element `touch_input` buffer (and passes the same unclamped count to
`GetTouchInputInfo` as the buffer capacity), so a report of 11 simultaneous
touch points accesses index 10, past the end of the buffer.  The per-point
dispatch itself does normalize each point with the truncating division by
100 and invokes the touch slot once per reported point. -/
theorem touch_count_not_bounded :
    __law_touchInBounds 10 = true ∧
    __law_touchInBounds 11 = false ∧
    (__law_touchIndices 11).contains 10 = true ∧
    __law_wrapperTouch (some 1) 2 true
        (fun i => { x := 250 + 100 * (i : Int), y := 399, dwID := i,
                    dwMask := 0 }) =
      TouchOutcome.dispatched [(2, 3), (3, 3)] := by
  refine ⟨by decide, by decide, by decide, ?_⟩
  rfl

/-! ## C1 — class registration across a sequence of creations -/

/-- C1: counterexample to the claim as stated.  A first creation call whose
registration fails sets `law_error` to `LAW_ERROR_CREATE_WINDOW`, not
`LAW_ERROR_REGISTER_WINDOW_CLASS`, and leaves `class_registered` unset; a
second creation call therefore attempts registration again
(`registrationAttempted = true`) and, when that retry succeeds, returns a
non-null handle — so registration is attempted more than once and not every
creation call in the process fails. -/
theorem registration_failure_counterexample :
    law_create { registerOk := false, createOk := true, mallocOk := true }
        { law_error := 0, class_registered := false } =
      Except.ok { handle := false, attached := none,
                  state := { law_error := LAW_ERROR_CREATE_WINDOW,
                             class_registered := false },
                  registrationAttempted := true } ∧
    LAW_ERROR_CREATE_WINDOW ≠ LAW_ERROR_REGISTER_WINDOW_CLASS ∧
    law_create { registerOk := true, createOk := true, mallocOk := true }
        { law_error := LAW_ERROR_CREATE_WINDOW, class_registered := false } =
      Except.ok { handle := true, attached := some law_initialData,
                  state := { law_error := LAW_ERROR_CREATE_WINDOW,
                             class_registered := true },
                  registrationAttempted := true } :=
  ⟨rfl, by decide, rfl⟩

/-- C1 (amended): registration is attempted on every creation call made
while the registered flag is unset; each call whose registration fails sets
the Error Registry to `CreateWindowFailed` and returns null, leaving the
flag unset so the next call retries; once the flag is set (registration
succeeded), no later creation call attempts registration and the flag stays
set. -/
theorem registration_retry_and_error (envs : List CreateEnv) (env : CreateEnv)
    (s t : ProcState)
    (h1 : ∀ e ∈ envs, e.registerOk = false) (h2 : s.class_registered = false)
    (h3 : t.class_registered = true)
    (h4 : env.createOk = false ∨ env.mallocOk = true) :
    (∃ rs s2, law_createRuns envs s = Except.ok (rs, s2) ∧
       rs.length = envs.length ∧
       (∀ r ∈ rs, r.handle = false ∧ r.registrationAttempted = true ∧
         r.state.law_error = LAW_ERROR_CREATE_WINDOW) ∧
       s2.class_registered = false) ∧
    (∃ r, law_create env t = Except.ok r ∧ r.registrationAttempted = false ∧
       r.state.class_registered = true) := by
  constructor
  · clear h3 h4
    revert h1 h2
    induction envs generalizing s with
    | nil =>
      intro _ h2
      exact ⟨[], s, rfl, rfl, by simp, h2⟩
    | cons e es ih =>
      intro h1 h2
      have he : e.registerOk = false := h1 e (List.mem_cons_self e es)
      have hes : ∀ x ∈ es, x.registerOk = false :=
        fun x hx => h1 x (List.mem_cons_of_mem e hx)
      have hstep : law_create e s =
          Except.ok { handle := false, attached := none,
                      state := { s with law_error := LAW_ERROR_CREATE_WINDOW },
                      registrationAttempted := true } := by
        simp [law_create, h2, he]
      obtain ⟨rs, s2, hrun, hlen, hall, hreg⟩ :=
        ih { s with law_error := LAW_ERROR_CREATE_WINDOW } hes h2
      refine ⟨{ handle := false, attached := none,
                state := { s with law_error := LAW_ERROR_CREATE_WINDOW },
                registrationAttempted := true } :: rs, s2, ?_, by simp [hlen],
              ?_, hreg⟩
      · simp [law_createRuns, hstep, hrun]
      · intro r hr
        rcases List.mem_cons.mp hr with h | h
        · subst h; exact ⟨rfl, rfl, rfl⟩
        · exact hall r h
  · have hstep : law_create env t = law_createWindow env t false := by
      simp [law_create, h3]
    by_cases hc : env.createOk = false
    · refine ⟨{ handle := false, attached := none,
                state := { t with law_error := LAW_ERROR_CREATE_WINDOW },
                registrationAttempted := false }, ?_, rfl, h3⟩
      rw [hstep]; simp [law_createWindow, hc]
    · have hc2 : env.createOk = true := by
        revert hc; cases env.createOk <;> simp
      have hm : env.mallocOk = true := by
        rcases h4 with h | h
        · exact absurd h hc
        · exact h
      refine ⟨{ handle := true, attached := some law_initialData, state := t,
                registrationAttempted := false }, ?_, rfl, h3⟩
      rw [hstep]; simp [law_createWindow, hc2, hm, __law_wrapperCreate]

/-- C1 (amended) witness: two creation calls with failing registration both
attempt registration, both return null with `law_error =
LAW_ERROR_CREATE_WINDOW`, and leave the flag unset; a call in a process with
the flag already set does not attempt registration. -/
theorem registration_retry_and_error_witness :
    (∃ rs s2,
       law_createRuns
           [{ registerOk := false, createOk := true, mallocOk := true },
            { registerOk := false, createOk := false, mallocOk := false }]
           { law_error := 0, class_registered := false } =
         Except.ok (rs, s2) ∧
       rs.length = 2 ∧
       (∀ r ∈ rs, r.handle = false ∧ r.registrationAttempted = true ∧
         r.state.law_error = LAW_ERROR_CREATE_WINDOW) ∧
       s2.class_registered = false) ∧
    (∃ r, law_create { registerOk := true, createOk := true, mallocOk := true }
        { law_error := 0, class_registered := true } = Except.ok r ∧
      r.registrationAttempted = false ∧ r.state.class_registered = true) := by
  have := registration_retry_and_error
    [{ registerOk := false, createOk := true, mallocOk := true },
     { registerOk := false, createOk := false, mallocOk := false }]
    { registerOk := true, createOk := true, mallocOk := true }
    { law_error := 0, class_registered := false }
    { law_error := 0, class_registered := true }
    (by decide) rfl rfl (Or.inr rfl)
  simpa using this

/-! ## C6 — the message pump -/

/-- C6: confirmed.  With an empty pending queue the pump dispatches nothing
and returns at once; with pending messages it routes every non-quit message
to the dispatcher in order and keeps draining, and on the process-quit
notification it invokes the Exit Hook (when set) with the carried exit code
and stops immediately, leaving the rest of the queue unprocessed; a
quit-free queue is drained completely. -/
theorem pump_quit_stops_and_drains (hook : Bool) (pre rest : List MSG)
    (q : MSG) (hpre : ∀ m ∈ pre, m.message ≠ WM_QUIT)
    (hq : q.message = WM_QUIT) :
    law_update hook [] =
      { dispatched := [], exitInvoked := none, pending := [] } ∧
    law_update hook (pre ++ q :: rest) =
      { dispatched := pre,
        exitInvoked := if hook then some q.wParam else none,
        pending := rest } ∧
    law_update hook pre =
      { dispatched := pre, exitInvoked := none, pending := [] } := by
  have hq1 : law_update hook (q :: rest) =
      { dispatched := [],
        exitInvoked := if hook then some q.wParam else none,
        pending := rest } := by
    simp [law_update, hq]
  refine ⟨rfl, ?_, ?_⟩
  · rw [law_update_drain hook (q :: rest) pre hpre, hq1]; simp
  · have h2 := law_update_drain hook [] pre hpre
    simpa [law_update] using h2

/-- C6 witness: a concrete queue of two ordinary messages, a quit message
carrying exit code 7, and one further message. -/
theorem pump_quit_stops_and_drains_witness :
    law_update true [] =
      { dispatched := [], exitInvoked := none, pending := [] } ∧
    law_update true
        [{ message := 512, wParam := 0 }, { message := 5, wParam := 3 },
         { message := WM_QUIT, wParam := 7 }, { message := 16, wParam := 0 }] =
      { dispatched :=
          [{ message := 512, wParam := 0 }, { message := 5, wParam := 3 }],
        exitInvoked := some 7,
        pending := [{ message := 16, wParam := 0 }] } ∧
    law_update true
        [{ message := 512, wParam := 0 }, { message := 5, wParam := 3 }] =
      { dispatched :=
          [{ message := 512, wParam := 0 }, { message := 5, wParam := 3 }],
        exitInvoked := none, pending := [] } := by
  have := pump_quit_stops_and_drains true
    [{ message := 512, wParam := 0 }, { message := 5, wParam := 3 }]
    [{ message := 16, wParam := 0 }] { message := WM_QUIT, wParam := 7 }
    (by decide) rfl
  simpa using this

/-! ## C7 — initial state of a successfully created window -/

/-- C7: confirmed.  Whenever a creation call completes successfully (the
class is registered or registers now, the native creation succeeds and the
state allocation succeeds), `law_create` returns a handle whose per-window
slot holds the initial Window State, `law_getData` of that slot is non-null,
and that state has `running = 1`, `user_data` null, and every one of the
twenty Event Table slots absent. -/
theorem created_window_initial_state (env : CreateEnv) (s : ProcState)
    (hc : env.createOk = true) (hm : env.mallocOk = true)
    (hr : s.class_registered = true ∨ env.registerOk = true) :
    ∃ r : CreateCallResult, law_create env s = Except.ok r ∧ r.handle = true ∧
      law_getData r.attached = some law_initialData ∧
      law_initialData.running = 1 ∧ law_initialData.user_data = none ∧
      lawEventsAllAbsent law_initialData.event = true := by
  by_cases hreg : s.class_registered = true
  · refine ⟨{ handle := true, attached := some law_initialData, state := s,
              registrationAttempted := false }, ?_, rfl, rfl, rfl, rfl, rfl⟩
    simp [law_create, hreg, law_createWindow, hc, hm, __law_wrapperCreate]
  · have hreg2 : s.class_registered = false := by
      revert hreg; cases s.class_registered <;> simp
    have hro : env.registerOk = true := by
      rcases hr with h | h
      · exact absurd h hreg
      · exact h
    refine ⟨{ handle := true, attached := some law_initialData,
              state := { s with class_registered := true },
              registrationAttempted := true }, ?_, rfl, rfl, rfl, rfl, rfl⟩
    simp [law_create, hreg2, hro, law_createWindow, hc, hm,
      __law_wrapperCreate]

/-- C7 witness: the first creation call of a fresh process with all native
steps succeeding. -/
theorem created_window_initial_state_witness :
    ∃ r : CreateCallResult,
      law_create { registerOk := true, createOk := true, mallocOk := true }
          { law_error := 0, class_registered := false } = Except.ok r ∧
      r.handle = true ∧ law_getData r.attached = some law_initialData ∧
      law_initialData.running = 1 ∧ law_initialData.user_data = none ∧
      lawEventsAllAbsent law_initialData.event = true :=
  created_window_initial_state
    { registerOk := true, createOk := true, mallocOk := true }
    { law_error := 0, class_registered := false } rfl rfl (Or.inr rfl)

/-! ## C8 — the dispatcher re-reads the slot on each dispatch -/

/-- C8: confirmed.  A maximize dispatch invokes the callback found in the
maximize slot at lookup time, and nothing mutates the dispatch after that
lookup: the outcome is exactly `env c1 d` for the looked-up `c1`.  If that
callback replaced its own slot with `c2`, the next maximize dispatch — which
reads the slot of the current state again — invokes `c2`, not `c1`. -/
theorem sysCommand_rereads_maximize_slot (env : Nat → law_Data → law_Data)
    (d : law_Data) (c1 c2 : Nat)
    (h1 : d.event.window.maximize = some c1)
    (h2 : (env c1 d).event.window.maximize = some c2) :
    __law_wrapperSysCommand env SC_MAXIMIZE d =
      SysCmdOutcome.handled (env c1 d) ∧
    __law_wrapperSysCommand env SC_MAXIMIZE (env c1 d) =
      SysCmdOutcome.handled (env c2 (env c1 d)) := by
  have e1 : ∀ x : law_Data, __law_wrapperSysCommand env SC_MAXIMIZE x =
      (match x.event.window.maximize with
       | none => SysCmdOutcome.defaultProc x
       | some cb => SysCmdOutcome.handled (env cb x)) := fun x => rfl
  refine ⟨?_, ?_⟩
  · rw [e1 d, h1]
  · rw [e1 (env c1 d), h2]

/-- C8 witness: the scenario of tests/test_window.c — handler 1 installs
handler 2 from inside its own dispatch, and the second maximize
notification invokes handler 2. -/
theorem sysCommand_rereads_maximize_slot_witness :
    __law_wrapperSysCommand lawMaxSwapEnv SC_MAXIMIZE lawMaxData0 =
      SysCmdOutcome.handled (lawMaxSwapEnv 1 lawMaxData0) ∧
    __law_wrapperSysCommand lawMaxSwapEnv SC_MAXIMIZE
        (lawMaxSwapEnv 1 lawMaxData0) =
      SysCmdOutcome.handled (lawMaxSwapEnv 2 (lawMaxSwapEnv 1 lawMaxData0)) :=
  sysCommand_rereads_maximize_slot lawMaxSwapEnv lawMaxData0 1 2 rfl rfl

/-! ## C9 — the assertion in law_getErrorMsg -/

/-- C9: confirmed.  In an assertion-enabled build, `law_getErrorMsg` aborts
for every code `≥ 3` — including `LAW_ERROR_REGISTER_WINDOW_CLASS = 3`, a
member of the defined error set — and only codes `< 3` reach the message
lookup; the behaviour for code 3 (returning a message) is reachable only in
the assertion-disabled build. -/
theorem errorMsg_assert_rejects_defined_code (c : Nat) :
    (3 ≤ c → law_getErrorMsgChecked c = Except.error ()) ∧
    (c < 3 → law_getErrorMsgChecked c = Except.ok (law_getErrorMsg c)) ∧
    law_getErrorMsgChecked LAW_ERROR_REGISTER_WINDOW_CLASS =
      Except.error () ∧
    law_getErrorMsg LAW_ERROR_REGISTER_WINDOW_CLASS =
      "led to register window class" := by
  refine ⟨?_, ?_, rfl, rfl⟩
  · intro h
    have h2 : ¬ c < 3 := Nat.not_lt.mpr h
    simp [law_getErrorMsgChecked, h2]
  · intro h
    simp [law_getErrorMsgChecked, h]

/-- C9 witness: code 3 aborts, code 2 returns the (assertion-disabled)
message. -/
theorem errorMsg_assert_rejects_defined_code_witness :
    law_getErrorMsgChecked 3 = Except.error () ∧
    law_getErrorMsgChecked 2 = Except.ok (law_getErrorMsg 2) :=
  ⟨(errorMsg_assert_rejects_defined_code 3).1 (by decide),
   (errorMsg_assert_rejects_defined_code 2).2.1 (by decide)⟩

/-! ## C10 — pen dispatch and the backend query -/

/-- C10: confirmed.  With a pen slot registered, the callback is invoked
exactly when `GetPointerPenInfo` succeeds, with the queried pressure and
tilts and the low-word pointer id; when the query fails the notification is
silently dropped — neither the callback nor default native handling runs —
and the Error Registry is returned unchanged in every case. -/
theorem pen_dispatch_requires_query (cb wParam err : Nat)
    (getPenInfo : Nat → Option POINTER_PEN_INFO) :
    (getPenInfo (wParam &&& 0xFFFF) = none →
      __law_wrapperPointerUpdate (some cb) wParam getPenInfo err =
        (PenOutcome.dropped, err)) ∧
    (∀ info, getPenInfo (wParam &&& 0xFFFF) = some info →
      __law_wrapperPointerUpdate (some cb) wParam getPenInfo err =
        (PenOutcome.invoked cb (wParam &&& 0xFFFF) info.pressure info.tiltX
          info.tiltY, err)) ∧
    __law_wrapperPointerUpdate none wParam getPenInfo err =
      (PenOutcome.defaultProc, err) := by
  refine ⟨?_, ?_, rfl⟩
  · intro h
    simp [__law_wrapperPointerUpdate, h]
  · intro info h
    simp [__law_wrapperPointerUpdate, h]

/-- C10 witness: a failing query drops the notification with the error slot
untouched; a successful query invokes the pen slot with the queried values
and the low word of `wParam` as the pointer id. -/
theorem pen_dispatch_requires_query_witness :
    __law_wrapperPointerUpdate (some 4) 74565 (fun _ => none) 0 =
      (PenOutcome.dropped, 0) ∧
    __law_wrapperPointerUpdate (some 4) 74565
        (fun _ => some { pressure := 512, tiltX := 5, tiltY := -3 }) 0 =
      (PenOutcome.invoked 4 9029 512 5 (-3), 0) :=
  ⟨(pen_dispatch_requires_query 4 74565 0 (fun _ => none)).1 rfl,
   (pen_dispatch_requires_query 4 74565 0
      (fun _ => some { pressure := 512, tiltX := 5, tiltY := -3 })).2.1
      { pressure := 512, tiltX := 5, tiltY := -3 } rfl⟩
